import Mathlib

/-
Verification development for the Intelligent Server Monitoring Framework
(python-framework).  The definitions below are a shallow embedding of the
plugin orchestration and remediation decision engine implemented in
`ai_code_learning_system.py`, `main.py` and `enhanced_main.py`:

* the AI learning engine (`AILearningEngine`): intervention records,
  per-problem-type success rates, success prediction and the auto-apply gate;
* the deployment engine (`DeploymentEngine`): safety gate, strategy
  selection, the deployment execution state machine and rollback;
* the AI code fixing plugin (`AICodeFixingPlugin`): risk scoring;
* the monitoring cycle of `main.py` and the plugin loop of
  `enhanced_main.py`.

Python floats are modelled as rationals (ℚ); timestamps are modelled as
rationals counting seconds, so "one hour ago" is `now - 3600`.  Fields of
the Python dataclasses that carry no logic (free-form metadata maps) are
omitted.  Exceptions in the Python code are modelled by explicit outcome
flags on an environment record where the code reacts to them, and are
absent where the surrounding `try`/`except` makes the function total.
-/

/--
Shallow embedding of the dataclass `AiIntervention`
(ai_code_learning_system.py, lines 34-46).  The open-ended `metadata`
dictionary is omitted: no decision logic reads it.
-/
structure AiIntervention where
  problem_type : String
  issue_description : String
  solution_applied : String
  confidence : ℚ
  risk_score : ℚ
  outcome : String
  timestamp : ℚ
  deployment_id : Option String := none
  code_issue_id : Option String := none

/--
Outcome weighting used by `AILearningEngine._update_learning_patterns`
(lines 181-182): `1.0 if outcome == 'success' else 0.5 if outcome ==
'partial' else 0.0`.
-/
def outcome_value (outcome : String) : ℚ :=
  if outcome == "success" then 1.0 else if outcome == "partial" then 0.5 else 0.0

/--
One step of building the `pattern_outcomes` defaultdict of
`_update_learning_patterns` (lines 174-183): appending one outcome value to
the bucket of a problem-type key, creating the bucket on first use (the
defaultdict inserts new keys in iteration order, here at the tail).
-/
def pattern_outcomes_insert : List (String × List ℚ) → String → ℚ → List (String × List ℚ)
  | [], key, v => [(key, [v])]
  | (k, vs) :: rest, key, v =>
    if k == key then (k, vs ++ [v]) :: rest
    else (k, vs) :: pattern_outcomes_insert rest key v

/--
The `pattern_outcomes` map of `_update_learning_patterns` (lines 174-183):
for every intervention, in order, the outcome value is appended to the
bucket of its problem type.
-/
def pattern_outcomes (interventions : List AiIntervention) : List (String × List ℚ) :=
  interventions.foldl
    (fun acc i => pattern_outcomes_insert acc i.problem_type (outcome_value i.outcome)) []

/--
The `pattern_success_rates` table computed by `_update_learning_patterns`
(lines 186-189): for each problem type with at least one recorded
intervention, `sum(outcomes) / len(outcomes)`.  The engine recomputes this
table from the full intervention list on every `record_intervention`, so a
lookup in this derived table is the engine state after any sequence of
recordings.
-/
def pattern_success_rates (interventions : List AiIntervention) : List (String × ℚ) :=
  (pattern_outcomes interventions).map (fun p => (p.1, p.2.sum / (p.2.length : ℚ)))

/--
Shallow embedding of `AILearningEngine.predict_intervention_success`
(lines 272-294).  If the problem type has a learned pattern the base
success rate is adjusted by at most ±20% from the confidence and risk
factors and clamped into [0,1] via `max(0.0, min(1.0, _))`; otherwise the
fallback `max(0.0, confidence - risk_score)` is returned.  The Python
`try`/`except` never fires on this arithmetic, so it is not modelled.
-/
def predict_intervention_success (interventions : List AiIntervention)
    (problem_type : String) (confidence risk_score : ℚ) : ℚ :=
  match List.lookup problem_type (pattern_success_rates interventions) with
  | some base_success_rate =>
    let confidence_factor := (confidence - 0.5) * 2
    let risk_factor := (0.5 - risk_score) * 2
    let adjustment := (confidence_factor + risk_factor) * 0.2
    max 0.0 (min 1.0 (base_success_rate + adjustment))
  | none => max 0.0 (confidence - risk_score)

/--
Python truthiness of the `Optional[str]` field `deployment_id` as tested by
`_count_recent_deployments` (line 331): `None` and the empty string are
falsy.
-/
def deployment_id_truthy : Option String → Bool
  | none => false
  | some s => !(s == "")

/--
Shallow embedding of `AILearningEngine._count_recent_deployments`
(lines 326-333): the number of interventions whose timestamp is strictly
after `now - 1 hour` and whose `deployment_id` is truthy.
-/
def count_recent_deployments (interventions : List AiIntervention) (now : ℚ) : ℕ :=
  (interventions.filter
    (fun i => decide (now - 3600 < i.timestamp) && deployment_id_truthy i.deployment_id)).length

/--
Configuration of the learning engine as read in `AILearningEngine.__init__`
and `should_auto_apply_fix` (lines 91-93, 310, 317).
-/
structure AiConfig where
  min_confidence : ℚ
  max_risk_score : ℚ
  min_success_probability : ℚ
  max_deployments_per_hour : ℕ
  require_approval : Bool

/--
Shallow embedding of `AILearningEngine.should_auto_apply_fix`
(lines 296-324): the sequential threshold, prediction, rate-limit and
approval checks, each returning `False` on rejection.
-/
def should_auto_apply_fix (cfg : AiConfig) (interventions : List AiIntervention)
    (now : ℚ) (problem_type : String) (confidence risk_score : ℚ) : Bool :=
  if confidence < cfg.min_confidence ∨ risk_score > cfg.max_risk_score then false
  else if predict_intervention_success interventions problem_type confidence risk_score
      < cfg.min_success_probability then false
  else if cfg.max_deployments_per_hour ≤ count_recent_deployments interventions now then false
  else if cfg.require_approval then false
  else true

/--
Status values of the dataclass `DeploymentRecord` (line 54): `pending`,
`in_progress`, `completed`, `failed`, `rolled_back`.
-/
inductive DStatus where
  | pending
  | in_progress
  | completed
  | failed
  | rolled_back
deriving DecidableEq

/--
Shallow embedding of the dataclass `DeploymentRecord` (lines 48-63)
restricted to the fields the deployment logic reads or writes.  The extra
field `status_trace` records every status value assigned to the record, in
order, so that the claimed state-machine transitions can be stated; the
field `failure_reason` holds `metadata['failure_reason']`.
-/
structure DeploymentRec where
  status : DStatus
  commit_hash : Option String
  status_trace : List DStatus
  failure_reason : Option String
deriving DecidableEq

/--
Assignment `deployment.status = s` on a `DeploymentRecord`, also appending
the new status to the transition trace.
-/
def set_status (d : DeploymentRec) (s : DStatus) : DeploymentRec :=
  { d with status := s, status_trace := d.status_trace ++ [s] }

/--
A `DeploymentRecord` as constructed at the start of
`DeploymentEngine.deploy_fix` (lines 378-386): status `pending`, no commit
hash, no failure reason.
-/
def new_deployment_record : DeploymentRec :=
  { status := .pending, commit_hash := none,
    status_trace := [.pending], failure_reason := none }

/--
Result of one validation command in `DeploymentEngine._run_tests`
(lines 505-538): either the command ran and returned an exit code, or
running it raised (which `_run_tests` catches and records as a failure).
-/
inductive TestOutcome where
  | exit_code (code : ℤ)
  | raised
deriving DecidableEq

/--
The `success` flag computed by `_run_tests` (lines 507-536): it starts
`True` and is set to `False` when any command raises or exits non-zero, so
it ends `true` exactly when every command exits 0.
-/
def tests_success (outcomes : List TestOutcome) : Bool :=
  outcomes.all (fun o => o == TestOutcome.exit_code 0)

/--
Environment of one run of `DeploymentEngine._execute_deployment`: whether
the backup, apply and release steps raise, the per-command validation
outcomes, and the value `_commit_changes` returns (`_commit_changes`
catches its own errors and returns `None` instead of raising,
lines 540-558).
-/
structure ExecEnv where
  backup_ok : Bool
  apply_ok : Bool
  test_outcomes : List TestOutcome
  commit_result : Option String
  release_ok : Bool

/--
Shallow embedding of `DeploymentEngine._rollback_deployment`
(lines 692-710): the record's status is set to `rolled_back`
unconditionally, and the reverse commit (`git reset --hard HEAD~1`) is
invoked exactly when the record carries a commit hash.  The second
component counts reverse-commit invocations.
-/
def rollback_deployment (d : DeploymentRec) : DeploymentRec × ℕ :=
  let r := set_status d .rolled_back
  (r, if r.commit_hash.isSome then 1 else 0)

/--
Shallow embedding of `DeploymentEngine._execute_deployment`
(lines 441-482).  The status is set to `in_progress`, then backup, apply,
validation, commit and release run in order.  A validation failure calls
`_rollback_deployment` directly and returns (lines 456-458).  An exception
raised by backup, apply or release is caught by the surrounding `except`
(lines 478-482), which sets the status to `failed` and then calls
`_rollback_deployment`.  When everything succeeds the status is set to
`completed`.  The second component of the result counts reverse-commit
invocations made by the rollback helper.
-/
def execute_deployment (env : ExecEnv) (d0 : DeploymentRec) : DeploymentRec × ℕ :=
  let d := set_status d0 .in_progress
  if env.backup_ok then
    if env.apply_ok then
      if tests_success env.test_outcomes then
        let d := { d with commit_hash := env.commit_result }
        if env.release_ok then
          (set_status d .completed, 0)
        else
          rollback_deployment (set_status d .failed)
      else
        rollback_deployment d
    else
      rollback_deployment (set_status d .failed)
  else
    rollback_deployment (set_status d .failed)

/--
Safety configuration of the deployment engine as read in
`DeploymentEngine.__init__` (lines 365-366).
-/
structure SafetyConfig where
  business_hours_restriction : Bool
  max_concurrent_deployments : ℕ

/--
The count of records with status `in_progress` in the active-deployments
map, as computed in `_check_safety_constraints` (line 430).
-/
def count_in_progress (active : List DeploymentRec) : ℕ :=
  (active.filter (fun d => d.status == DStatus.in_progress)).length

/--
Shallow embedding of `DeploymentEngine._check_safety_constraints`
(lines 419-439): blocked inside business hours (9 ≤ hour ≤ 17) when the
restriction is on, and blocked when the in-progress count has reached
`max_concurrent_deployments`.
-/
def check_safety_constraints (cfg : SafetyConfig) (current_hour : ℕ)
    (active : List DeploymentRec) : Bool :=
  if cfg.business_hours_restriction && decide (9 ≤ current_hour) && decide (current_hour ≤ 17)
  then false
  else if cfg.max_concurrent_deployments ≤ count_in_progress active then false
  else true

/--
The start phase of `DeploymentEngine.deploy_fix` (lines 373-398) up to the
`pending → in_progress` transition: the fresh `pending` record is inserted
into the active-deployments map, the safety gate is checked on that map,
and the record either fails with `metadata['failure_reason'] = 'Safety
constraints not met'` (lines 392-395) or takes the `in_progress` status
assigned by the first statement of `_execute_deployment` (line 444).  The
remaining execution steps are modelled by `execute_deployment`.
-/
def deploy_fix_start (cfg : SafetyConfig) (current_hour : ℕ)
    (active : List DeploymentRec) : List DeploymentRec × DeploymentRec :=
  let d := new_deployment_record
  if check_safety_constraints cfg current_hour (active ++ [d]) then
    let d := set_status d .in_progress
    (active ++ [d], d)
  else
    let d := { set_status d .failed with failure_reason := some "Safety constraints not met" }
    (active ++ [d], d)

/--
Shallow embedding of `DeploymentEngine._determine_deployment_strategy`
(lines 408-417): the strategy is looked up in the configured
`deployment_strategies` table by risk band, with the defaults
`direct_deployment`, `canary_deployment` and `blue_green_deployment`.
-/
def determine_deployment_strategy (strategies : String → Option String)
    (confidence : ℚ) : String :=
  if 0.9 ≤ confidence then (strategies "low_risk").getD "direct_deployment"
  else if 0.7 ≤ confidence then (strategies "medium_risk").getD "canary_deployment"
  else (strategies "high_risk").getD "blue_green_deployment"

/--
The empty `deployment_strategies` table: `self.config.get(
'deployment_strategies', {})` with no configuration present (line 410).
-/
def default_deployment_strategies : String → Option String := fun _ => none

/--
The four severity levels of `ProblemSeverity` used by
`AICodeFixingPlugin._calculate_risk_score`.
-/
inductive ProblemSev where
  | low
  | medium
  | high
  | critical
deriving DecidableEq

/--
The severity increments applied to `base_risk` in `_calculate_risk_score`
(lines 871-876): CRITICAL +0.3, HIGH +0.2, MEDIUM +0.1, LOW +0.
-/
def severity_addend : ProblemSev → ℚ
  | .critical => 0.3
  | .high => 0.2
  | .medium => 0.1
  | .low => 0

/--
The `fix_type_risks` lookup of `_calculate_risk_score` (lines 882-889) with
its `.get` default of 0.3 for unknown fix types.
-/
def fix_type_risk (fix_type : String) : ℚ :=
  if fix_type == "syntax_correction" then 0.1
  else if fix_type == "connection_resilience" then 0.2
  else if fix_type == "timeout_handling" then 0.15
  else if fix_type == "security_fix" then 0.4
  else 0.3

/--
Shallow embedding of `AICodeFixingPlugin._calculate_risk_score`
(lines 866-892): `min(1.0, base_risk + severity addend + (1 - confidence) *
0.3 + fix-type addend)` where `base_risk` starts at 0.2.
-/
def calculate_risk_score (severity : ProblemSev) (fix_confidence : ℚ)
    (fix_type : String) : ℚ :=
  let base_risk : ℚ := 0.2 + severity_addend severity
  let confidence_factor := (1 - fix_confidence) * 0.3
  let type_risk := fix_type_risk fix_type
  min 1.0 (base_risk + confidence_factor + type_risk)

/--
Shallow embedding of the `Problem` records produced by detectors
(main.py), restricted to the fields the cycle logic reads.
-/
structure ProblemRec where
  ptype : String
  description : String
deriving DecidableEq

/--
A collector plugin as driven by `_collect_all_metrics` (main.py,
lines 940-951): it either returns a metric map or raises (`none`), in which
case the cycle logs and moves on.
-/
structure CollectorPlugin where
  name : String
  collect_result : Option (List (String × ℚ))

/--
A detector plugin as driven by `_detect_problems` (main.py,
lines 953-965): it either returns a list of problems or raises (`none`),
in which case the cycle logs and moves on.
-/
structure DetectorPlugin where
  name : String
  detect_result : Option (List ProblemRec)

/--
A remediation plugin as registered in the `remediators` collection of
`IntelligentMonitoringFramework` (main.py, lines 829-878), with its
`can_handle_problem` predicate.
-/
structure RemediatorPlugin where
  name : String
  can_handle_result : ProblemRec → Bool

/--
The plugin collections of `IntelligentMonitoringFramework` (main.py,
lines 780-785).
-/
structure MonitoringFramework where
  collectors : List CollectorPlugin
  detectors : List DetectorPlugin
  remediators : List RemediatorPlugin

/--
Shallow embedding of `IntelligentMonitoringFramework._collect_all_metrics`
(main.py, lines 940-951): metric maps of the collectors are merged in
registration order; a raising collector contributes nothing.  The merge is
kept as ordered concatenation (a later entry shadows an earlier one on
lookup, matching `dict.update`).
-/
def collect_all_metrics (collectors : List CollectorPlugin) : List (String × ℚ) :=
  collectors.foldl
    (fun acc c => match c.collect_result with | some ms => acc ++ ms | none => acc) []

/--
Shallow embedding of `IntelligentMonitoringFramework._detect_problems`
(main.py, lines 953-965): problems of the detectors are concatenated in
registration order; a raising detector contributes nothing.
-/
def detect_problems (detectors : List DetectorPlugin) : List ProblemRec :=
  detectors.foldl
    (fun acc d => match d.detect_result with | some ps => acc ++ ps | none => acc) []

/--
Observable outcome of one run of
`IntelligentMonitoringFramework._monitoring_cycle`: the merged metrics,
the detected problems, the list of remediation invocations the cycle makes
(each as remediator name paired with the problem passed), and whether the
results were emitted to the backend.
-/
structure CycleResult where
  metrics : List (String × ℚ)
  problems : List ProblemRec
  remediation_calls : List (String × ProblemRec)
  sent_to_backend : Bool

/--
Shallow embedding of `IntelligentMonitoringFramework._monitoring_cycle`
(main.py, lines 922-938).  The cycle collects metrics, appends them to the
history, detects problems, and sends metrics and problems to the Node.js
backend.  The body contains no call to any remediator
(`execute_remediation` or `can_handle_problem` is not invoked anywhere in
the cycle), so the list of remediation invocations it produces is empty.
-/
def monitoring_cycle (fw : MonitoringFramework) : CycleResult :=
  let current_metrics := collect_all_metrics fw.collectors
  let problems := detect_problems fw.detectors
  { metrics := current_metrics
    problems := problems
    remediation_calls := []
    sent_to_backend := true }

/--
A plugin dictionary entry of `EnhancedMonitoringFramework`
(enhanced_main.py, lines 80-141): its `type` and `status` strings, whether
the dictionary has a `remediate_func` key, and whether calling that
function raises.
-/
structure EnhancedPlugin where
  name : String
  ptype : String
  status : String
  has_remediate_func : Bool
  remediate_raises : Bool

/--
Shallow embedding of the remediation step of the enhanced monitoring loop
(enhanced_main.py, lines 440-448): when the problem list is nonempty,
every plugin whose `type` is `remediator` and whose `status` is `running`
is visited; inside a per-plugin `try`, its `remediate_func` — when present
— is invoked once with the full problem list.  Each invocation is recorded
as (plugin name, problems passed, completed-without-raising); a raising
plugin is caught and the loop continues with the next plugin.
-/
def enhanced_remediation_step (plugins : List EnhancedPlugin)
    (all_problems : List ProblemRec) : List (String × List ProblemRec × Bool) :=
  if all_problems.isEmpty then []
  else
    plugins.foldl
      (fun acc p =>
        if p.ptype == "remediator" && p.status == "running" then
          if p.has_remediate_func then
            acc ++ [(p.name, all_problems, !p.remediate_raises)]
          else acc
        else acc) []

/--
Outcome weights of all recorded interventions of one problem type, written
as the specification phrases it: the weights `success=1.0`, `partial=0.5`,
`failure=0.0` over the interventions whose `problem_type` matches.
-/
def outcome_weights (interventions : List AiIntervention) (pt : String) : List ℚ :=
  (interventions.filter (fun i => i.problem_type == pt)).map
    (fun i => outcome_value i.outcome)

/--
Intervention builder for concrete scenarios: only the problem type, the
outcome, the timestamp and the deployment id vary.
-/
def mk_intervention (pt outcome : String) (ts : ℚ) (dep : Option String) : AiIntervention :=
  { problem_type := pt, issue_description := "issue", solution_applied := "fix",
    confidence := 0.9, risk_score := 0.1, outcome := outcome, timestamp := ts,
    deployment_id := dep }

/--
Learning configuration of the rate-limit scenario: permissive thresholds,
`max_deployments_per_hour = 3`, approval not required.
-/
def c1_scenario_config : AiConfig :=
  { min_confidence := 0.75, max_risk_score := 0.3, min_success_probability := 0.8,
    max_deployments_per_hour := 3, require_approval := false }

/--
Three successful interventions dated now (t = 3600), each carrying a
deployment id.
-/
def c1_scenario_interventions : List AiIntervention :=
  [mk_intervention "api_timeout" "success" 3600 (some "dep1"),
   mk_intervention "api_timeout" "success" 3600 (some "dep2"),
   mk_intervention "api_timeout" "success" 3600 (some "dep3")]

/--
Deployment environment in which backup and apply succeed but the single
validation command exits 1; a commit hash would have been available had the
commit step been reached.
-/
def c2_counter_env : ExecEnv :=
  { backup_ok := true, apply_ok := true, test_outcomes := [TestOutcome.exit_code 1],
    commit_result := some "abc123", release_ok := true }

/--
Deployment environment in which every step succeeds and the single
validation command exits 0.
-/
def c2_ok_env : ExecEnv :=
  { backup_ok := true, apply_ok := true, test_outcomes := [TestOutcome.exit_code 0],
    commit_result := some "def456", release_ok := true }

/--
Five interventions for problem type X with outcomes success, success,
success, success, failure.
-/
def c6_five_interventions : List AiIntervention :=
  [mk_intervention "X" "success" 0 none,
   mk_intervention "X" "success" 0 none,
   mk_intervention "X" "success" 0 none,
   mk_intervention "X" "success" 0 none,
   mk_intervention "X" "failure" 0 none]

/--
Five interventions for problem type Y with outcomes success, failure,
partial, partial, success.
-/
def c6_mixed_interventions : List AiIntervention :=
  [mk_intervention "Y" "success" 0 none,
   mk_intervention "Y" "failure" 0 none,
   mk_intervention "Y" "partial" 0 none,
   mk_intervention "Y" "partial" 0 none,
   mk_intervention "Y" "success" 0 none]

/--
A single successful intervention, giving problem type Z a learned pattern.
-/
def c6_witness_list : List AiIntervention :=
  [mk_intervention "Z" "success" 0 none]

/--
A single successful intervention for problem type api, giving it a learned
pattern with success rate 1.
-/
def c7_pattern_list : List AiIntervention :=
  [mk_intervention "api" "success" 0 none]

/--
A problem produced by a detector in the remediation counterexample.
-/
def c10_problem : ProblemRec :=
  { ptype := "log_pattern_syntax_error", description := "syntax error in main.py" }

/--
A framework with one detector that reports `c10_problem` and one registered
remediation plugin whose `can_handle_problem` accepts every problem.
-/
def c10_framework : MonitoringFramework :=
  { collectors := []
    detectors := [{ name := "log_pattern_detector", detect_result := some [c10_problem] }]
    remediators := [{ name := "system_remediation", can_handle_result := fun _ => true }] }

/--
A single running remediator plugin entry of the enhanced framework, with a
remediate function that does not raise.
-/
def c10_plugins : List EnhancedPlugin :=
  [{ name := "auto_remediator", ptype := "remediator", status := "running",
     has_remediate_func := true, remediate_raises := false }]

/--
Looking up a key after one defaultdict-append step: the bucket of the
inserted key gains the value at its end, other buckets are unchanged.
-/
theorem lookup_pattern_outcomes_insert (acc : List (String × List ℚ)) (key pt : String) (v : ℚ) :
    List.lookup pt (pattern_outcomes_insert acc key v) =
      if pt = key then some (((List.lookup pt acc).getD []) ++ [v])
      else List.lookup pt acc := by
  induction acc with
  | nil =>
    by_cases h : pt = key
    · simp [pattern_outcomes_insert, List.lookup, h]
    · have hb : (pt == key) = false := by simp [h]
      simp [pattern_outcomes_insert, List.lookup, h, hb]
  | cons hd tl ih =>
    obtain ⟨k, vs⟩ := hd
    by_cases hk : k = key
    · subst hk
      by_cases hp : pt = k
      · simp [pattern_outcomes_insert, List.lookup, hp]
      · have hb : (pt == k) = false := by simp [hp]
        simp [pattern_outcomes_insert, List.lookup, hp, hb]
    · have hbk : (k == key) = false := by simp [hk]
      by_cases hp : pt = k
      · subst hp
        have hpk : ¬ pt = key := fun hq => hk hq
        have hb : (pt == key) = false := by simp [hpk]
        simp [pattern_outcomes_insert, List.lookup, hbk, hpk]
      · have hb : (pt == k) = false := by simp [hp]
        simp [pattern_outcomes_insert, List.lookup, hbk, hb, ih]

/--
Folding the remaining interventions over an accumulator that already has a
bucket for the queried type appends exactly the outcome weights of the
matching interventions.
-/
theorem lookup_pattern_outcomes_fold_some (l : List AiIntervention)
    (acc : List (String × List ℚ)) (pt : String) (vs : List ℚ)
    (h : List.lookup pt acc = some vs) :
    List.lookup pt
        (l.foldl (fun a i => pattern_outcomes_insert a i.problem_type (outcome_value i.outcome))
          acc) =
      some (vs ++ outcome_weights l pt) := by
  induction l generalizing acc vs with
  | nil => simp [outcome_weights, h]
  | cons i rest ih =>
    by_cases hp : i.problem_type = pt
    · have hstep :
          List.lookup pt (pattern_outcomes_insert acc i.problem_type (outcome_value i.outcome)) =
            some (vs ++ [outcome_value i.outcome]) := by
        rw [lookup_pattern_outcomes_insert]
        simp [hp, h]
      rw [List.foldl_cons, ih _ _ hstep]
      simp [outcome_weights, List.filter_cons, hp, List.append_assoc]
    · have hstep :
          List.lookup pt (pattern_outcomes_insert acc i.problem_type (outcome_value i.outcome)) =
            some vs := by
        rw [lookup_pattern_outcomes_insert]
        simp [Ne.symm hp, h]
      rw [List.foldl_cons, ih _ _ hstep]
      have hb : (i.problem_type == pt) = false := by simp [hp]
      simp [outcome_weights, List.filter_cons, hb]

/--
Folding interventions over an accumulator with no bucket for the queried
type produces exactly the outcome weights of the matching interventions,
or no bucket at all when none match.
-/
theorem lookup_pattern_outcomes_fold_none (l : List AiIntervention)
    (acc : List (String × List ℚ)) (pt : String)
    (h : List.lookup pt acc = none) :
    List.lookup pt
        (l.foldl (fun a i => pattern_outcomes_insert a i.problem_type (outcome_value i.outcome))
          acc) =
      if outcome_weights l pt = [] then none else some (outcome_weights l pt) := by
  induction l generalizing acc with
  | nil => simp [outcome_weights, h]
  | cons i rest ih =>
    by_cases hp : i.problem_type = pt
    · have hstep :
          List.lookup pt (pattern_outcomes_insert acc i.problem_type (outcome_value i.outcome)) =
            some [outcome_value i.outcome] := by
        rw [lookup_pattern_outcomes_insert]
        simp [hp, h]
      rw [List.foldl_cons, lookup_pattern_outcomes_fold_some rest _ _ _ hstep]
      simp [outcome_weights, List.filter_cons, hp]
    · have hstep :
          List.lookup pt (pattern_outcomes_insert acc i.problem_type (outcome_value i.outcome)) =
            none := by
        rw [lookup_pattern_outcomes_insert]
        simp [Ne.symm hp, h]
      rw [List.foldl_cons, ih _ hstep]
      have hb : (i.problem_type == pt) = false := by simp [hp]
      simp [outcome_weights, List.filter_cons, hb]

/--
Lookup commutes with the per-bucket mean taken by `pattern_success_rates`.
-/
theorem lookup_rates_map (xs : List (String × List ℚ)) (pt : String) :
    List.lookup pt (xs.map (fun p => (p.1, p.2.sum / (p.2.length : ℚ)))) =
      (List.lookup pt xs).map (fun vs => vs.sum / (vs.length : ℚ)) := by
  induction xs with
  | nil => simp [List.lookup]
  | cons hd tl ih =>
    obtain ⟨k, vs⟩ := hd
    by_cases h : pt = k
    · simp [List.lookup, h]
    · have hb : (pt == k) = false := by simp [h]
      simp [List.lookup, hb, ih]

/--
The learned success-rate table, looked up for one problem type, is the mean
of the outcome weights of the interventions of that type (or absent when
there are none).
-/
theorem lookup_pattern_success_rates (l : List AiIntervention) (pt : String) :
    List.lookup pt (pattern_success_rates l) =
      if outcome_weights l pt = [] then none
      else some ((outcome_weights l pt).sum / ((outcome_weights l pt).length : ℚ)) := by
  unfold pattern_success_rates pattern_outcomes
  rw [lookup_rates_map, lookup_pattern_outcomes_fold_none l [] pt (by simp [List.lookup])]
  by_cases h : outcome_weights l pt = [] <;> simp [h]

/--
C4 (counterexample): `predict_intervention_success` does not clamp its
inputs.  With no learned pattern, the out-of-range confidence 2 (risk 0)
flows straight into the fallback `max(0, confidence - risk_score)` and the
result is 2, outside [0,1].
-/
theorem predict_success_out_of_range_counterexample :
    predict_intervention_success [] "net" 2 0 = 2 ∧
    ¬ (predict_intervention_success [] "net" 2 0 ≤ 1) := by
  have h : predict_intervention_success [] "net" 2 0 = 2 := by
    rw [predict_intervention_success, lookup_pattern_success_rates]
    norm_num [outcome_weights]
  refine ⟨h, ?_⟩
  rw [h]
  norm_num

/--
C4 (amended): for every problem type and confidence and risk score in
[0,1], `predict_intervention_success` returns a value in [0,1], whether or
not a learned pattern exists; out-of-range inputs are not clamped before
use and can escape on the fallback path.
-/
theorem predict_success_range (l : List AiIntervention) (pt : String) (c r : ℚ)
    (hc0 : 0 ≤ c) (hc1 : c ≤ 1) (hr0 : 0 ≤ r) (hr1 : r ≤ 1) :
    0 ≤ predict_intervention_success l pt c r ∧
      predict_intervention_success l pt c r ≤ 1 := by
  rw [predict_intervention_success]
  cases hlk : List.lookup pt (pattern_success_rates l) with
  | some sr =>
    constructor
    · exact le_max_of_le_left (by norm_num)
    · exact max_le (by norm_num) (le_trans (min_le_left _ _) (by norm_num))
  | none =>
    constructor
    · exact le_max_of_le_left (by norm_num)
    · exact max_le (by norm_num) (by linarith)

/--
C4 (witness): the amended range theorem applied at confidence 0.9 and risk
0.2 with no recorded interventions.
-/
theorem predict_success_range_witness :
    (0 : ℚ) ≤ 0.9 ∧ (0.9 : ℚ) ≤ 1 ∧ (0 : ℚ) ≤ 0.2 ∧ (0.2 : ℚ) ≤ 1 ∧
    (0 ≤ predict_intervention_success [] "net" 0.9 0.2 ∧
      predict_intervention_success [] "net" 0.9 0.2 ≤ 1) :=
  ⟨by norm_num, by norm_num, by norm_num, by norm_num,
    predict_success_range [] "net" 0.9 0.2 (by norm_num) (by norm_num) (by norm_num)
      (by norm_num)⟩

/--
C5: for a problem type with zero recorded interventions (so no learned
pattern is present), `predict_intervention_success` is exactly the
fallback `max(0, confidence - risk_score)`.
-/
theorem predict_success_fallback_law (l : List AiIntervention) (pt : String) (c r : ℚ)
    (h : l.filter (fun i => i.problem_type == pt) = []) :
    predict_intervention_success l pt c r = max 0 (c - r) := by
  have hw : outcome_weights l pt = [] := by simp [outcome_weights, h]
  rw [predict_intervention_success, lookup_pattern_success_rates]
  simp [hw]
  norm_num

/--
C5 (witness): the fallback law applied to the empty intervention log at
confidence 0.4 and risk 0.1.
-/
theorem predict_success_fallback_witness :
    List.filter (fun i => i.problem_type == "db") ([] : List AiIntervention) = [] ∧
    predict_intervention_success [] "db" 0.4 0.1 = max 0 (0.4 - 0.1) :=
  ⟨rfl, predict_success_fallback_law [] "db" 0.4 0.1 rfl⟩

/--
C6: the learned success rate of a problem type is the arithmetic mean of
the outcome weights (success 1.0, partial 0.5, failure 0.0) over all
recorded interventions of that type; in particular outcomes
[success, success, success, success, failure] give 0.8, and
[success, failure, partial, partial, success] give 0.6.
-/
theorem success_rate_mean_spec :
    (∀ (l : List AiIntervention) (pt : String),
        l.filter (fun i => i.problem_type == pt) ≠ [] →
        List.lookup pt (pattern_success_rates l) =
          some
            (((l.filter (fun i => i.problem_type == pt)).map
                (fun i => outcome_value i.outcome)).sum /
              ((l.filter (fun i => i.problem_type == pt)).length : ℚ))) ∧
    List.lookup "X" (pattern_success_rates c6_five_interventions) = some 0.8 ∧
    List.lookup "Y" (pattern_success_rates c6_mixed_interventions) = some 0.6 := by
  have H : ∀ (l : List AiIntervention) (pt : String),
      l.filter (fun i => i.problem_type == pt) ≠ [] →
      List.lookup pt (pattern_success_rates l) =
        some
          (((l.filter (fun i => i.problem_type == pt)).map
              (fun i => outcome_value i.outcome)).sum /
            ((l.filter (fun i => i.problem_type == pt)).length : ℚ)) := by
    intro l pt h
    have hw : outcome_weights l pt ≠ [] := by simp [outcome_weights, h]
    rw [lookup_pattern_success_rates, if_neg hw]
    simp [outcome_weights]
  refine ⟨H, ?_, ?_⟩
  · rw [H c6_five_interventions "X" (by simp [c6_five_interventions, mk_intervention])]
    simp [c6_five_interventions, mk_intervention, outcome_value]
    norm_num
  · rw [H c6_mixed_interventions "Y" (by simp [c6_mixed_interventions, mk_intervention])]
    simp [c6_mixed_interventions, mk_intervention, outcome_value]
    norm_num

/--
C6 (witness): the mean law applied to a single successful intervention for
problem type Z.
-/
theorem success_rate_mean_witness :
    c6_witness_list.filter (fun i => i.problem_type == "Z") ≠ [] ∧
    List.lookup "Z" (pattern_success_rates c6_witness_list) =
      some
        (((c6_witness_list.filter (fun i => i.problem_type == "Z")).map
            (fun i => outcome_value i.outcome)).sum /
          ((c6_witness_list.filter (fun i => i.problem_type == "Z")).length : ℚ)) :=
  ⟨by simp [c6_witness_list, mk_intervention],
    success_rate_mean_spec.1 c6_witness_list "Z" (by simp [c6_witness_list, mk_intervention])⟩

/--
C7: for a problem type with a learned pattern of success rate at least 0.5
and a fixed risk score, `predict_intervention_success` is monotone in the
confidence.
-/
theorem predict_success_monotone_confidence (l : List AiIntervention) (pt : String)
    (r c1 c2 sr : ℚ)
    (hlk : List.lookup pt (pattern_success_rates l) = some sr)
    (hsr : (1 : ℚ) / 2 ≤ sr) (hc : c1 ≤ c2) :
    predict_intervention_success l pt c1 r ≤ predict_intervention_success l pt c2 r := by
  rw [predict_intervention_success, predict_intervention_success, hlk]
  dsimp only
  apply max_le_max le_rfl
  apply min_le_min le_rfl
  nlinarith [hc]

/--
C7 (witness): monotonicity applied to the learned pattern of problem type
api (success rate 1), risk 0.2, confidences 0.6 ≤ 0.7.
-/
theorem predict_success_monotone_witness :
    List.lookup "api" (pattern_success_rates c7_pattern_list) = some 1 ∧
    (1 : ℚ) / 2 ≤ 1 ∧ (0.6 : ℚ) ≤ 0.7 ∧
    predict_intervention_success c7_pattern_list "api" 0.6 0.2 ≤
      predict_intervention_success c7_pattern_list "api" 0.7 0.2 := by
  have hlk : List.lookup "api" (pattern_success_rates c7_pattern_list) = some 1 := by
    rw [lookup_pattern_success_rates]
    norm_num [outcome_weights, c7_pattern_list, mk_intervention, outcome_value]
  exact ⟨hlk, by norm_num, by norm_num,
    predict_success_monotone_confidence c7_pattern_list "api" 0.2 0.6 0.7 1 hlk
      (by norm_num) (by norm_num)⟩

/--
C1: `should_auto_apply_fix` returns false exactly when the confidence is
below `min_confidence`, or the risk is above `max_risk_score`, or the
predicted success (on the same arguments) is below
`min_success_probability`, or the interventions of the trailing hour that
carry a deployment id have reached `max_deployments_per_hour`, or the
`require_approval` flag is set; in particular, with three dated-now
interventions carrying deployment ids and `max_deployments_per_hour = 3`,
the next call returns false even at confidence 0.95 and risk 0.05.
-/
theorem should_auto_apply_iff_and_rate_limit :
    (∀ (cfg : AiConfig) (l : List AiIntervention) (now : ℚ) (pt : String) (c r : ℚ),
        should_auto_apply_fix cfg l now pt c r = false ↔
          (c < cfg.min_confidence ∨ r > cfg.max_risk_score ∨
            predict_intervention_success l pt c r < cfg.min_success_probability ∨
            cfg.max_deployments_per_hour ≤ count_recent_deployments l now ∨
            cfg.require_approval = true)) ∧
    should_auto_apply_fix c1_scenario_config c1_scenario_interventions 3600
      "api_timeout" 0.95 0.05 = false := by
  have H : ∀ (cfg : AiConfig) (l : List AiIntervention) (now : ℚ) (pt : String) (c r : ℚ),
      should_auto_apply_fix cfg l now pt c r = false ↔
        (c < cfg.min_confidence ∨ r > cfg.max_risk_score ∨
          predict_intervention_success l pt c r < cfg.min_success_probability ∨
          cfg.max_deployments_per_hour ≤ count_recent_deployments l now ∨
          cfg.require_approval = true) := by
    intro cfg l now pt c r
    unfold should_auto_apply_fix
    split_ifs with h1 h2 h3 h4 <;> simp_all <;> tauto
  refine ⟨H, (H _ _ _ _ _ _).mpr ?_⟩
  have h36 : (3600 : ℚ) - 3600 < 3600 := by norm_num
  have hcount : count_recent_deployments c1_scenario_interventions 3600 = 3 := by
    simp [count_recent_deployments, c1_scenario_interventions, mk_intervention,
      deployment_id_truthy, h36]
  exact Or.inr (Or.inr (Or.inr (Or.inl (by simp [c1_scenario_config, hcount]))))

/--
C8: for every severity, fix type and fix confidence in [0,1], the computed
risk score is base risk 0.2 plus the severity addend plus
`(1 - confidence) * 0.3` plus the fix-type addend, clamped into [0,1].
-/
theorem calculate_risk_score_spec (sev : ProblemSev) (ft : String) (c : ℚ)
    (hc0 : 0 ≤ c) (hc1 : c ≤ 1) :
    calculate_risk_score sev c ft =
      max 0 (min 1 (0.2 + severity_addend sev + (1 - c) * 0.3 + fix_type_risk ft)) := by
  have hsev : 0 ≤ severity_addend sev := by cases sev <;> norm_num [severity_addend]
  have hft : (0.1 : ℚ) ≤ fix_type_risk ft := by
    unfold fix_type_risk
    split_ifs <;> norm_num
  have hsum : 0 ≤ 0.2 + severity_addend sev + (1 - c) * 0.3 + fix_type_risk ft := by
    nlinarith
  unfold calculate_risk_score
  rw [max_eq_right (le_min (by norm_num) hsum)]
  norm_num

/--
C8 (witness): the risk-score law applied to a medium-severity syntax
correction at confidence 0.8.
-/
theorem calculate_risk_score_witness :
    calculate_risk_score ProblemSev.medium 0.8 "syntax_correction" =
      max 0
        (min 1
          (0.2 + severity_addend ProblemSev.medium + (1 - 0.8) * 0.3 +
            fix_type_risk "syntax_correction")) :=
  calculate_risk_score_spec ProblemSev.medium "syntax_correction" 0.8 (by norm_num)
    (by norm_num)

/--
C9: with the default strategy configuration the deployment strategy is a
pure function of the confidence: at least 0.9 selects direct deployment,
at least 0.7 but below 0.9 selects canary deployment, and below 0.7
selects blue-green deployment.
-/
theorem deployment_strategy_selection_spec (c : ℚ) :
    (0.9 ≤ c →
      determine_deployment_strategy default_deployment_strategies c = "direct_deployment") ∧
    (0.7 ≤ c → c < 0.9 →
      determine_deployment_strategy default_deployment_strategies c = "canary_deployment") ∧
    (c < 0.7 →
      determine_deployment_strategy default_deployment_strategies c
        = "blue_green_deployment") := by
  refine ⟨fun h => ?_, fun h1 h2 => ?_, fun h => ?_⟩
  · unfold determine_deployment_strategy default_deployment_strategies
    rw [if_pos h]
    rfl
  · unfold determine_deployment_strategy default_deployment_strategies
    rw [if_neg (not_le.mpr h2), if_pos h1]
    rfl
  · unfold determine_deployment_strategy default_deployment_strategies
    rw [if_neg (not_le.mpr (by linarith)), if_neg (not_le.mpr h)]
    rfl

/--
C9 (witness): confidence 0.95 selects direct deployment.
-/
theorem deployment_strategy_selection_witness :
    determine_deployment_strategy default_deployment_strategies 0.95
      = "direct_deployment" :=
  (deployment_strategy_selection_spec 0.95).1 (by norm_num)

/--
C2 (counterexample): when the single validation command exits 1, the
record goes directly from `in_progress` to `rolled_back` — it never enters
`failed` even though no commit had been made, and no reverse commit is
invoked.  The claim instead requires the record to end in `failed` here.
-/
theorem deployment_validation_failure_counterexample :
    (execute_deployment c2_counter_env new_deployment_record).1.commit_hash = none ∧
    (execute_deployment c2_counter_env new_deployment_record).1.status
      = DStatus.rolled_back ∧
    ¬ (execute_deployment c2_counter_env new_deployment_record).1.status = DStatus.failed ∧
    DStatus.failed ∉ (execute_deployment c2_counter_env new_deployment_record).1.status_trace ∧
    (execute_deployment c2_counter_env new_deployment_record).2 = 0 := by
  decide

/--
C2 (amended): a fully successful run ends `completed`; an exception in
backup or apply moves the record through `failed` to `rolled_back` with no
reverse commit; a failing validation command moves the record directly
from `in_progress` to `rolled_back` (never through `failed`, with no
commit and no reverse commit); an exception in the release step moves the
record through `failed` to `rolled_back` and invokes the reverse commit
exactly once when and only when the commit step had produced a hash.
-/
theorem execute_deployment_outcomes (env : ExecEnv) :
    (env.backup_ok = true → env.apply_ok = true → tests_success env.test_outcomes = true →
      env.release_ok = true →
      (execute_deployment env new_deployment_record).1.status = DStatus.completed ∧
      (execute_deployment env new_deployment_record).1.status_trace
        = [DStatus.pending, DStatus.in_progress, DStatus.completed] ∧
      (execute_deployment env new_deployment_record).1.commit_hash = env.commit_result ∧
      (execute_deployment env new_deployment_record).2 = 0) ∧
    (env.backup_ok = false ∨ env.backup_ok = true ∧ env.apply_ok = false →
      (execute_deployment env new_deployment_record).1.status_trace
        = [DStatus.pending, DStatus.in_progress, DStatus.failed, DStatus.rolled_back] ∧
      (execute_deployment env new_deployment_record).1.commit_hash = none ∧
      (execute_deployment env new_deployment_record).2 = 0) ∧
    (env.backup_ok = true → env.apply_ok = true → tests_success env.test_outcomes = false →
      (execute_deployment env new_deployment_record).1.status_trace
        = [DStatus.pending, DStatus.in_progress, DStatus.rolled_back] ∧
      (execute_deployment env new_deployment_record).1.status = DStatus.rolled_back ∧
      (execute_deployment env new_deployment_record).1.commit_hash = none ∧
      (execute_deployment env new_deployment_record).2 = 0) ∧
    (env.backup_ok = true → env.apply_ok = true → tests_success env.test_outcomes = true →
      env.release_ok = false →
      (execute_deployment env new_deployment_record).1.status_trace
        = [DStatus.pending, DStatus.in_progress, DStatus.failed, DStatus.rolled_back] ∧
      (execute_deployment env new_deployment_record).2
        = (if env.commit_result.isSome then 1 else 0)) := by
  refine ⟨fun hb ha ht hr => ?_, fun h => ?_, fun hb ha ht => ?_, fun hb ha ht hr => ?_⟩
  · simp [execute_deployment, rollback_deployment, set_status, new_deployment_record,
      hb, ha, ht, hr]
  · rcases h with hb | ⟨hb, ha⟩
    · simp [execute_deployment, rollback_deployment, set_status, new_deployment_record, hb]
    · simp [execute_deployment, rollback_deployment, set_status, new_deployment_record,
        hb, ha]
  · simp [execute_deployment, rollback_deployment, set_status, new_deployment_record,
      hb, ha, ht]
  · simp [execute_deployment, rollback_deployment, set_status, new_deployment_record,
      hb, ha, ht, hr]

/--
C2 (witness): the amended state-machine theorem applied to an environment
where the single validation command exits 0 and every step succeeds.
-/
theorem execute_deployment_outcomes_witness :
    (execute_deployment c2_ok_env new_deployment_record).1.status = DStatus.completed ∧
    (execute_deployment c2_ok_env new_deployment_record).1.status_trace
      = [DStatus.pending, DStatus.in_progress, DStatus.completed] ∧
    (execute_deployment c2_ok_env new_deployment_record).1.commit_hash
      = c2_ok_env.commit_result ∧
    (execute_deployment c2_ok_env new_deployment_record).2 = 0 :=
  (execute_deployment_outcomes c2_ok_env).1 rfl rfl (by decide) rfl

/--
C3: the started record reaches `in_progress` exactly when the safety gate
passes (not inside the restricted window and strictly fewer records
in progress than `max_concurrent_deployments`); otherwise it goes directly
from `pending` to `failed` with the reason recorded and never reaches
`in_progress`; the started state never exceeds the concurrency bound; and
with `max_concurrent_deployments = 1` a second deployment started while
one is in progress ends `failed`.
-/
theorem deploy_fix_safety_gate_spec :
    (∀ (cfg : SafetyConfig) (hour : ℕ) (active : List DeploymentRec),
        (deploy_fix_start cfg hour active).2.status = DStatus.in_progress ↔
          (¬(cfg.business_hours_restriction = true ∧ 9 ≤ hour ∧ hour ≤ 17) ∧
            count_in_progress active < cfg.max_concurrent_deployments)) ∧
    (∀ (cfg : SafetyConfig) (hour : ℕ) (active : List DeploymentRec),
        check_safety_constraints cfg hour (active ++ [new_deployment_record]) = false →
        (deploy_fix_start cfg hour active).2.status = DStatus.failed ∧
        (deploy_fix_start cfg hour active).2.failure_reason
          = some "Safety constraints not met" ∧
        DStatus.in_progress ∉ (deploy_fix_start cfg hour active).2.status_trace) ∧
    (∀ (cfg : SafetyConfig) (hour : ℕ) (active : List DeploymentRec),
        count_in_progress active ≤ cfg.max_concurrent_deployments →
        count_in_progress (deploy_fix_start cfg hour active).1
          ≤ cfg.max_concurrent_deployments) ∧
    ((deploy_fix_start ⟨false, 1⟩ 3
        [set_status new_deployment_record DStatus.in_progress]).2.status
      = DStatus.failed ∧
      (deploy_fix_start ⟨false, 1⟩ 3
          [set_status new_deployment_record DStatus.in_progress]).2.failure_reason
        = some "Safety constraints not met" ∧
      DStatus.in_progress ∉
        (deploy_fix_start ⟨false, 1⟩ 3
            [set_status new_deployment_record DStatus.in_progress]).2.status_trace) := by
  have hcount_append : ∀ (active : List DeploymentRec),
      count_in_progress (active ++ [new_deployment_record]) = count_in_progress active := by
    intro active
    simp [count_in_progress, List.filter_append, new_deployment_record]
  have hgate : ∀ (cfg : SafetyConfig) (hour : ℕ) (active : List DeploymentRec),
      check_safety_constraints cfg hour (active ++ [new_deployment_record]) = true ↔
        (¬(cfg.business_hours_restriction = true ∧ 9 ≤ hour ∧ hour ≤ 17) ∧
          count_in_progress active < cfg.max_concurrent_deployments) := by
    intro cfg hour active
    unfold check_safety_constraints
    rw [hcount_append]
    split_ifs with h1 h2 <;> simp_all <;> omega
  have hstart : ∀ (cfg : SafetyConfig) (hour : ℕ) (active : List DeploymentRec),
      deploy_fix_start cfg hour active =
        if check_safety_constraints cfg hour (active ++ [new_deployment_record]) = true then
          (active ++ [set_status new_deployment_record DStatus.in_progress],
            set_status new_deployment_record DStatus.in_progress)
        else
          (active ++ [{ set_status new_deployment_record DStatus.failed with
              failure_reason := some "Safety constraints not met" }],
            { set_status new_deployment_record DStatus.failed with
              failure_reason := some "Safety constraints not met" }) := by
    intro cfg hour active
    rfl
  refine ⟨?_, ?_, ?_, ?_⟩
  · intro cfg hour active
    rw [hstart, ← hgate cfg hour active]
    by_cases hg : check_safety_constraints cfg hour (active ++ [new_deployment_record]) = true
    · rw [if_pos hg]
      simp [set_status, hg]
    · rw [if_neg hg]
      simp [set_status, hg]
  · intro cfg hour active hg
    rw [hstart, if_neg (by simp [hg])]
    simp [set_status, new_deployment_record]
  · intro cfg hour active hle
    rw [hstart]
    by_cases hg : check_safety_constraints cfg hour (active ++ [new_deployment_record]) = true
    · have hlt := ((hgate cfg hour active).mp hg).2
      rw [if_pos hg]
      simp only [count_in_progress, List.filter_append, List.length_append,
        set_status] at hlt ⊢
      simp only [List.filter_cons, List.filter_nil]
      simp only [beq_self_eq_true, if_true, List.length_cons, List.length_nil]
      omega
    · rw [if_neg hg]
      simp only [count_in_progress, List.filter_append, List.length_append,
        set_status] at hle ⊢
      simp only [List.filter_cons, List.filter_nil]
      have hfb : (DStatus.failed == DStatus.in_progress) = false := by decide
      simp only [hfb, Bool.false_eq_true, if_false, List.length_nil]
      omega
  · refine ⟨by decide, by decide, by decide⟩

/--
C3 (witness): the direct-failure branch of the safety-gate theorem applied
with the business-hours restriction on at hour 10 and an empty
active-deployments map.
-/
theorem deploy_fix_safety_gate_witness :
    check_safety_constraints ⟨true, 1⟩ 10 ([] ++ [new_deployment_record]) = false ∧
    (deploy_fix_start ⟨true, 1⟩ 10 []).2.status = DStatus.failed ∧
    (deploy_fix_start ⟨true, 1⟩ 10 []).2.failure_reason
      = some "Safety constraints not met" :=
  ⟨by decide,
    ((deploy_fix_safety_gate_spec.2.1 ⟨true, 1⟩ 10 []) (by decide)).1,
    ((deploy_fix_safety_gate_spec.2.1 ⟨true, 1⟩ 10 []) (by decide)).2.1⟩

/--
C10 (counterexample): a cycle of the main framework detects a problem and
a remediation plugin is registered whose `can_handle_problem` accepts it,
yet the cycle makes no remediation invocation at all — `_monitoring_cycle`
only collects, stores, detects and reports.
-/
theorem monitoring_cycle_no_remediation_counterexample :
    (monitoring_cycle c10_framework).problems = [c10_problem] ∧
    c10_framework.remediators.all (fun r => r.can_handle_result c10_problem) = true ∧
    c10_framework.remediators.length = 1 ∧
    (monitoring_cycle c10_framework).remediation_calls = [] :=
  ⟨rfl, rfl, rfl, rfl⟩

/--
C10 (amended): the `main.py` monitoring cycle never invokes remediators;
in the `enhanced_main.py` loop, when at least one problem was detected,
every plugin of type `remediator` with status `running` and a remediate
function is invoked exactly once with the full problem list — with no
`can_handle` filtering, and regardless of whether an earlier plugin raised
(isolation is per plugin); with no problems, no remediator is invoked.
-/
theorem remediation_invocation_spec :
    (∀ fw : MonitoringFramework, (monitoring_cycle fw).remediation_calls = []) ∧
    (∀ (plugins : List EnhancedPlugin) (problems : List ProblemRec),
        problems ≠ [] →
        enhanced_remediation_step plugins problems =
          (plugins.filter (fun p =>
              p.ptype == "remediator" && p.status == "running" && p.has_remediate_func)).map
            (fun p => (p.name, problems, !p.remediate_raises))) ∧
    (∀ plugins : List EnhancedPlugin, enhanced_remediation_step plugins [] = []) := by
  have hfold : ∀ (problems : List ProblemRec) (plugins : List EnhancedPlugin)
      (acc : List (String × List ProblemRec × Bool)),
      plugins.foldl
          (fun acc p =>
            if p.ptype == "remediator" && p.status == "running" then
              if p.has_remediate_func then
                acc ++ [(p.name, problems, !p.remediate_raises)]
              else acc
            else acc) acc =
        acc ++
          (plugins.filter (fun p =>
              p.ptype == "remediator" && p.status == "running" && p.has_remediate_func)).map
            (fun p => (p.name, problems, !p.remediate_raises)) := by
    intro problems plugins
    induction plugins with
    | nil => intro acc; simp
    | cons p ps ih =>
      intro acc
      rw [List.foldl_cons]
      by_cases h1 : (p.ptype == "remediator" && p.status == "running") = true
      · by_cases h2 : p.has_remediate_func = true
        · have hcond :
              (p.ptype == "remediator" && p.status == "running" && p.has_remediate_func)
                = true := by
            rw [h1, h2]
            rfl
          rw [if_pos h1, if_pos h2, ih, List.filter_cons, if_pos hcond, List.map_cons]
          simp
        · have hcond :
              ¬ ((p.ptype == "remediator" && p.status == "running" && p.has_remediate_func)
                = true) := by
            simp [h2]
          rw [if_pos h1, if_neg h2, ih, List.filter_cons, if_neg hcond]
      · have hb : (p.ptype == "remediator" && p.status == "running") = false :=
          Bool.eq_false_iff.mpr (fun he => h1 he)
        have hcond :
            ¬ ((p.ptype == "remediator" && p.status == "running" && p.has_remediate_func)
              = true) := by
          simp [hb]
        rw [if_neg h1, ih, List.filter_cons, if_neg hcond]
  refine ⟨fun fw => rfl, ?_, fun plugins => rfl⟩
  intro plugins problems hne
  unfold enhanced_remediation_step
  rw [if_neg (by simp [hne])]
  exact hfold problems plugins []

/--
C10 (witness): the enhanced-loop law applied to one running remediator
plugin and one detected problem.
-/
theorem remediation_invocation_witness :
    ([c10_problem] : List ProblemRec) ≠ [] ∧
    enhanced_remediation_step c10_plugins [c10_problem] =
      (c10_plugins.filter (fun p =>
          p.ptype == "remediator" && p.status == "running" && p.has_remediate_func)).map
        (fun p => (p.name, [c10_problem], !p.remediate_raises)) :=
  ⟨by simp, remediation_invocation_spec.2.1 c10_plugins [c10_problem] (by simp)⟩
